import Mathlib

/-!
Verification of the reverse Connection Scan journey planner
(`src/journey_finder.py`, `src/journey_search.py`, `src/confidence_calculation.py`).

Shallow embedding conventions:
* Stop ids and trip ids are `String` (the Python code treats them as opaque
  values; `journey_search.py` compares a stop id against the literal string
  `'destination_stop_id'`, so strings must be representable).
* Times and durations are `Int` seconds (`pd.to_timedelta(...).total_seconds()`
  yields whole seconds for `HH:MM:SS` inputs; subtraction can go negative).
* The maps `S` (per-stop state) and `T` (per-trip flag) are total functions
  `String → StopState` and `String → Bool`; dict writes become functional
  updates.  Python raises on the `c_0 = None` lookup
  (`timetable_sorted.index[timetable_sorted['connection_id'] == None][0]`),
  which is modelled by the scan returning `none`.
* `pandas.sort_values(by='arr_time')` is modelled by a deterministic
  comparison sort on `arr_time` alone (`List.insertionSort`); like the source
  sort it uses no tie-breaker, so the relative order of connections with equal
  `arr_time` depends on the input row order.
* The journey extractor's `while` loop is modelled with explicit fuel; the
  outcome distinguishes normal results, Python exceptions (`crash`) and
  running out of fuel (`fuelOut`, i.e. the loop is still running after that
  many iterations).
* In Python the legs appended to `ideal_journey` are the very dict objects
  stored in `S`; each record the scan writes to key `k` has `start_stop = k`,
  and each write creates a fresh dict, so mutating the leg stored at key `k`
  mutates exactly `S[k]`.  The extractor model therefore carries the key of
  each leg and mirrors the in-place `ideal_journey[-1][...] = ...` fix-ups as
  updates of both the journey and `S`.
-/

/-- The `transport` field of a stop-state / leg: Python `None`, the string
`'walking'`, or a trip id. -/
inductive Transport where
  | tnone : Transport
  | walking : Transport
  | trip : String → Transport
deriving DecidableEq, Repr

/-- One entry of the map `S`: the latest known departure from a stop
(`journey_finder.py` lines 118-124).  `start_time` is always a number in the
source; `start_stop`, `arrival_time`, `arrival_stop` start out as `None`. -/
structure StopState where
  transport : Transport
  start_time : Int
  start_stop : Option String
  arrival_time : Option Int
  arrival_stop : Option String
deriving DecidableEq, Repr

/-- One row of the timetable DataFrame. -/
structure Connection where
  connection_id : Nat
  trip_id : String
  dep_stop : String
  arr_stop : String
  dep_time : Int
  arr_time : Int
deriving DecidableEq, Repr

/-- One row of the footpaths DataFrame (`stop_id_a`, `stop_id_b`, `duration`). -/
structure Footpath where
  stop_id_a : String
  stop_id_b : String
  duration : Int
deriving DecidableEq, Repr

/-- Functional update of the per-stop map `S` (a Python dict write). -/
def updS (S : String → StopState) (k : String) (v : StopState) : String → StopState :=
  fun x => if x = k then v else S x

/-- Functional update of the per-trip map `T` (a Python dict write). -/
def updT (T : String → Bool) (k : String) (v : Bool) : String → Bool :=
  fun x => if x = k then v else T x

/-- The shared initial value of every `S` entry:
`{'transport': None, 'start_time': 0, 'start_stop': None, 'arrival_time': None,
'arrival_stop': None}`. -/
def emptyState : StopState :=
  { transport := Transport.tnone, start_time := 0, start_stop := none,
    arrival_time := none, arrival_stop := none }

/-- The comparison used by `timetable.sort_values(by='arr_time')`: order by
`arr_time` only, with no tie-breaking key. -/
def connLE (a b : Connection) : Prop := a.arr_time ≤ b.arr_time

instance : DecidableRel connLE := fun a b => inferInstanceAs (Decidable (a.arr_time ≤ b.arr_time))

instance : IsTotal Connection connLE := ⟨fun a b => Int.le_total a.arr_time b.arr_time⟩

instance : IsTrans Connection connLE := ⟨fun _ _ _ h h' => le_trans h h'⟩

/-- `timetable_sorted = timetable.sort_values(by='arr_time')`, modelled by a
deterministic comparison sort on `arr_time` alone. -/
def timetableSorted (timetable : List Connection) : List Connection :=
  List.insertionSort connLE timetable

/-- `c_0`: the `connection_id` of the last connection of the sorted timetable
with `arr_time <= total_seconds_arrival`, or `None` when no such connection
exists (`journey_finder.py` line 157). -/
def c_0 (sorted : List Connection) (deadline : Int) : Option Nat :=
  ((sorted.filter (fun c => decide (c.arr_time ≤ deadline))).getLast?).map Connection.connection_id

/-- Initial `S`: every stop mapped to `emptyState`, then the destination entry
(`journey_finder.py` lines 126-132).  The Python dict holds the `emptyState`
value exactly for the keys in `stop_ids` (dep stops, arr stops and footpath
`stop_id_a` stops); the model totalises it over all strings, so the value at a
string outside that key set is a modelling default, and theorems about what an
entry held before a write must observe a stop inside the key set. -/
def scanInitS (destination_stop_id : String) (deadline : Int) : String → StopState :=
  updS (fun _ => emptyState) destination_stop_id
    { transport := Transport.tnone, start_time := deadline,
      start_stop := some destination_stop_id, arrival_time := none, arrival_stop := none }

/-- The footpath seeding loop (`journey_finder.py` lines 145-153): for each row
of the given seed list, unconditionally overwrite `S[stop_id_b]` with a walking
record into the destination. -/
def destFootpathSeeds (seeds : List Footpath) (destination_stop_id : String) (deadline : Int)
    (S : String → StopState) : String → StopState :=
  seeds.foldl (fun S fp =>
    updS S fp.stop_id_b
      { transport := Transport.walking, start_time := deadline - fp.duration,
        start_stop := some fp.stop_id_b, arrival_time := some deadline,
        arrival_stop := some destination_stop_id }) S

/-- The relaxation test of `journey_finder.py` line 174, as the Bool the source
evaluates: `(T[trip] or S[arr].start_time >= arr_time) and
(S[dep].start_time < dep_time)`. -/
def relaxGuard (S : String → StopState) (T : String → Bool) (c : Connection) : Bool :=
  (T c.trip_id || decide ((S c.arr_stop).start_time ≥ c.arr_time))
    && decide ((S c.dep_stop).start_time < c.dep_time)

/-- The same relaxation test as a proposition. -/
def relaxCond (S : String → StopState) (T : String → Bool) (c : Connection) : Prop :=
  (T c.trip_id = true ∨ (S c.arr_stop).start_time ≥ c.arr_time)
    ∧ (S c.dep_stop).start_time < c.dep_time

/-- The record written to `S[dep_stop]` when a connection is relaxed
(`journey_finder.py` lines 178-184). -/
def connRecord (c : Connection) : StopState :=
  { transport := Transport.trip c.trip_id, start_time := c.dep_time,
    start_stop := some c.dep_stop, arrival_time := some c.arr_time,
    arrival_stop := some c.arr_stop }

/-- One footpath row of the back-propagation loop (`journey_finder.py` lines
187-194): update `S[stop_id_b]` when the walk gives a strictly later
departure.  The written `arrival_stop` is `fp.stop_id_a`, exactly as in the
source. -/
def backpropStep (depTime : Int) (S : String → StopState) (fp : Footpath) :
    String → StopState :=
  if (S fp.stop_id_b).start_time < depTime - fp.duration then
    updS S fp.stop_id_b
      { transport := Transport.walking, start_time := depTime - fp.duration,
        start_stop := some fp.stop_id_b, arrival_time := some depTime,
        arrival_stop := some fp.stop_id_a }
  else S

/-- Footpath back-propagation (`journey_finder.py` lines 186-194): iterate
`backpropStep` over the footpaths with `stop_id_a = dep_stop`. -/
def footpathBackprop (footpaths : List Footpath) (depStop : String) (depTime : Int)
    (S : String → StopState) : String → StopState :=
  (footpaths.filter (fun fp => fp.stop_id_a == depStop)).foldl (backpropStep depTime) S

/-- The body of the main scan loop for one connection (`journey_finder.py`
lines 174-194), without the early-termination test. -/
def connStep (footpaths : List Footpath) (c : Connection) (S : String → StopState)
    (T : String → Bool) : (String → StopState) × (String → Bool) :=
  if relaxGuard S T c then
    (footpathBackprop footpaths c.dep_stop c.dep_time (updS S c.dep_stop (connRecord c)),
     updT T c.trip_id true)
  else (S, T)

/-- The main scan loop over `timetable_rss` (`journey_finder.py` lines
165-194), including the early `break` when
`S[source].start_time >= arr_time`. -/
def scanLoop (source_stop_id : String) (footpaths : List Footpath) :
    List Connection → (String → StopState) → (String → Bool) →
    (String → StopState) × (String → Bool)
  | [], S, T => (S, T)
  | c :: rest, S, T =>
    if (S source_stop_id).start_time ≥ c.arr_time then (S, T)
    else
      let p := connStep footpaths c S T
      scanLoop source_stop_id footpaths rest p.1 p.2

/-- Everything the scan does after sorting the timetable, parameterised by the
seed list actually iterated (the two source copies filter footpaths
differently).  `none` models the `IndexError` raised by
`timetable_sorted.index[timetable_sorted['connection_id'] == c_0][0]` when
`c_0` is `None`. -/
def scanAfterSort (sorted : List Connection) (footpaths seeds : List Footpath)
    (source_stop_id destination_stop_id : String) (deadline : Int) :
    Option ((String → StopState) × (String → Bool)) :=
  let S1 := scanInitS destination_stop_id deadline
  if source_stop_id = destination_stop_id then
    some (updS S1 source_stop_id
      { transport := Transport.tnone, start_time := deadline,
        start_stop := some source_stop_id, arrival_time := some deadline,
        arrival_stop := some destination_stop_id },
      fun _ => false)
  else
    let S2 := destFootpathSeeds seeds destination_stop_id deadline S1
    match c_0 sorted deadline with
    | none => none
    | some cid =>
      let idx := sorted.findIdx (fun c => c.connection_id == cid)
      let rss := (sorted.take (idx + 1)).reverse
      some (scanLoop source_stop_id footpaths rss S2 (fun _ => false))

namespace JourneyFinder

/-- `JourneyFinder.__connection_scan_latest_arrival` (`journey_finder.py` lines
90-195).  The destination-footpath seeds are the rows with
`stop_id_a == destination_stop_id` (the variable). -/
def connection_scan_latest_arrival (timetable : List Connection) (footpaths : List Footpath)
    (source_stop_id destination_stop_id : String) (deadline : Int) :
    Option ((String → StopState) × (String → Bool)) :=
  scanAfterSort (timetableSorted timetable) footpaths
    (footpaths.filter (fun fp => fp.stop_id_a == destination_stop_id))
    source_stop_id destination_stop_id deadline

end JourneyFinder

namespace JourneySearch

/-- The module-level `connection_scan_latest_arrival` (`journey_search.py`
lines 7-113).  Identical to the `JourneyFinder` copy except that line 63
filters the seed rows with the literal string `'destination_stop_id'` instead
of the variable. -/
def connection_scan_latest_arrival (timetable : List Connection) (footpaths : List Footpath)
    (source_stop_id destination_stop_id : String) (deadline : Int) :
    Option ((String → StopState) × (String → Bool)) :=
  scanAfterSort (timetableSorted timetable) footpaths
    (footpaths.filter (fun fp => fp.stop_id_a == "destination_stop_id"))
    source_stop_id destination_stop_id deadline

end JourneySearch

/-- Outcome of `journey_extraction_latest_arrival`.  `ok` carries the journey
(each leg paired with the `S` key whose dict object it is) and the final state
of `S` after the extractor's in-place fix-ups.  `single` is the
source-equals-destination branch, which returns the raw dict `S[destination]`
instead of a list.  `noPath` is the Python `return None`.  `crash` models a
raised exception; `fuelOut` means the `while` loop is still running after the
given number of iterations. -/
inductive ExtractOut where
  | ok : List (String × StopState) → (String → StopState) → ExtractOut
  | single : StopState → ExtractOut
  | noPath : ExtractOut
  | crash : ExtractOut
  | fuelOut : ExtractOut

/-- The in-place fix-up `ideal_journey[-1]['arrival_time'] = prev[...]`,
`ideal_journey[-1]['arrival_stop'] = prev[...]` (`journey_finder.py` lines
229-230): it rewrites the last appended leg, and — because that leg is the
very dict stored in `S` under its key — also `S` at that key.  `none` models
the `IndexError` of `ideal_journey[-1]` on an empty list. -/
def fixLast (journey : List (String × StopState)) (prev : StopState)
    (S : String → StopState) :
    Option (List (String × StopState) × (String → StopState)) :=
  match journey.getLast? with
  | none => none
  | some (k, r) =>
    let r' := { r with arrival_time := prev.arrival_time, arrival_stop := prev.arrival_stop }
    some (journey.dropLast ++ [(k, r')], updS S k r')

/-- The extractor's `while` loop (`journey_finder.py` lines 223-250), with
explicit fuel.  `cur` is the current connection paired with the `S` key it was
read from; `mode` is `mode_of_transport`; `prevOpt` is `previous_connection`
(`none` before first assignment — reading it then would be a Python
`NameError`, modelled as `crash`).  Looking up `S[None]` (an `arrival_stop` of
`None`) is a `KeyError`, also `crash`. -/
def extractLoop (source_stop_id : String) :
    Nat → (String → StopState) → (String × StopState) → Transport →
    Option StopState → List (String × StopState) → ExtractOut
  | 0, _, _, _, _, _ => ExtractOut.fuelOut
  | fuel + 1, S, cur, mode, prevOpt, journey =>
    if cur.2.transport = Transport.tnone then
      -- loop exit (lines 247-250): final fix-up, then append the sentinel
      if cur.2.transport ≠ mode then
        match prevOpt with
        | none => ExtractOut.crash
        | some prev =>
          match fixLast journey prev S with
          | none => ExtractOut.crash
          | some (j', S') => ExtractOut.ok (j' ++ [cur]) S'
      else ExtractOut.ok (journey ++ [cur]) S
    else
      -- loop body (lines 225-245)
      let step : Option ((String → StopState) × Transport × List (String × StopState)) :=
        if cur.2.transport ≠ mode then
          if cur.2.start_stop ≠ some source_stop_id then
            match prevOpt with
            | none => none
            | some prev =>
              (fixLast journey prev S).map (fun p => (p.2, cur.2.transport, p.1 ++ [cur]))
          else some (S, cur.2.transport, journey ++ [cur])
        else some (S, mode, journey)
      match step with
      | none => ExtractOut.crash
      | some (S', mode', j') =>
        match cur.2.arrival_stop with
        | none => ExtractOut.crash
        | some k => extractLoop source_stop_id fuel S' (k, S' k) mode' (some cur.2) j'

/-- `journey_extraction_latest_arrival` (`journey_finder.py` lines 198-255 and
the identical copy in `journey_search.py`).  The `source == destination`
branch returns the raw dict `S[destination]`; otherwise the walk starts at
`S[source]` when its transport is not `None`, else the function returns
`None`. -/
def journey_extraction_latest_arrival (S : String → StopState)
    (source_stop_id destination_stop_id : String) (fuel : Nat) : ExtractOut :=
  if source_stop_id = destination_stop_id then
    ExtractOut.single (S destination_stop_id)
  else if (S source_stop_id).transport ≠ Transport.tnone then
    extractLoop source_stop_id fuel S (source_stop_id, S source_stop_id)
      Transport.tnone none []
  else ExtractOut.noPath

/-- The final `S` of a successful extraction, if any. -/
def extractFinalS : ExtractOut → Option (String → StopState)
  | ExtractOut.ok _ S => some S
  | _ => none

/-- `journey[-2]['arrival_time'] - 1` converted back to a seconds-of-day value
(`journey_finder.py` line 304: `pd.to_datetime(x - 1, unit='s')` followed by
`strftime('%H:%M:%S')` reduces modulo 86400).  `none` models the exceptions
raised when the journey is too short or the leg's `arrival_time` is `None`. -/
def nextDeadline (journey : List (String × StopState)) : Option Int :=
  match journey.dropLast.getLast? with
  | none => none
  | some (_, r) =>
    match r.arrival_time with
    | none => none
    | some t => some ((t - 1) % 86400)

namespace JourneyFinder

/-- `JourneyFinder.__get_latest_arrival_journey` (`journey_finder.py` lines
258-274): run the scan, then the extractor on its `S`. -/
def get_latest_arrival_journey (timetable : List Connection) (footpaths : List Footpath)
    (source_stop_id destination_stop_id : String) (deadline : Int) (fuel : Nat) : ExtractOut :=
  match connection_scan_latest_arrival timetable footpaths
      source_stop_id destination_stop_id deadline with
  | none => ExtractOut.crash
  | some p => journey_extraction_latest_arrival p.1 source_stop_id destination_stop_id fuel

/-- `JourneyFinder.__find_list_of_journeys` (`journey_finder.py` lines
277-305).  The Python loop always executes
`arrival_time = pd.to_datetime(journey[-2]['arrival_time'] - 1, ...)` after the
`if journey == None` test, so:
* a `None` journey sets `possible = 0` and then raises `TypeError`
  (`None[-2]`) — modelled `none`;
* the source-equals-destination dict raises `KeyError` (`journey[-2]` on a
  dict) — modelled `none`;
* only a run that collects `num_journeys` list journeys returns normally. -/
def find_list_of_journeys (timetable : List Connection) (footpaths : List Footpath)
    (source_stop_id destination_stop_id : String) :
    Int → Nat → Nat → Option (List (List (String × StopState)))
  | _, 0, _ => some []
  | deadline, k + 1, fuel =>
    match get_latest_arrival_journey timetable footpaths source_stop_id destination_stop_id
        deadline fuel with
    | ExtractOut.ok js _ =>
      match nextDeadline js with
      | none => none
      | some deadline' =>
        (find_list_of_journeys timetable footpaths source_stop_id destination_stop_id
          deadline' k fuel).map (js :: ·)
    | _ => none

end JourneyFinder

/-- One leg as consumed by `confidence_calculation.py`: by the time a journey
reaches the confidence computation its non-sentinel legs carry numeric times. -/
structure Leg where
  transport : Transport
  start_time : Int
  arrival_time : Int
deriving DecidableEq, Repr

/-- `transfer_confidence_simple` (`confidence_calculation.py` lines 4-7),
parameterised by the exponential CDF `sps.expon.cdf` (argument order:
time budget, then scale): the function returns `1.0` outright when the
predicted delay is non-positive, and only otherwise consults the CDF. -/
def transfer_confidence_simple (expCdf : ℚ → ℚ → ℚ) (arrival_delay time_budget : ℚ) : ℚ :=
  if arrival_delay ≤ 0 then 1 else expCdf time_budget arrival_delay

/-- `time_diff` (`confidence_calculation.py` lines 15-18): forward distance on
a 24-hour clock. -/
def time_diff (time1 time2 : Int) : Int :=
  if time1 - time2 < 0 then time1 - time2 + 24 * 3600 else time1 - time2

/-- Loop state of `journey_confidence_on_arrival_delay_predictions`.
`last_arrival_delay` is only ever read when `arrival_time_last` is set, and
both are assigned together; its initial placeholder is 0 (Python initialises
it to `None`, which is never read while `arrival_time_last is None`). -/
structure ConfState where
  arrival_time_last : Option Int
  last_arrival_delay : ℚ
  walking_time : Int
  confidence : ℚ

/-- One iteration of the `for leg, delay in zip(journey[0:-1], ...)` loop
(`confidence_calculation.py` lines 28-41). -/
def confStep (expCdf : ℚ → ℚ → ℚ) (st : ConfState) (p : Leg × ℚ) : ConfState :=
  if p.1.transport = Transport.walking then
    { st with walking_time := st.walking_time + time_diff p.1.arrival_time p.1.start_time }
  else
    let conf :=
      match st.arrival_time_last with
      | none => st.confidence
      | some t =>
        st.confidence * transfer_confidence_simple expCdf st.last_arrival_delay
          ((time_diff p.1.start_time t - st.walking_time : Int) : ℚ)
    { arrival_time_last := some p.1.arrival_time, last_arrival_delay := p.2,
      walking_time := 0, confidence := conf }

/-- `journey_confidence_on_arrival_delay_predictions`
(`confidence_calculation.py` lines 20-50).  The journey's sentinel leg is
dropped (`journey[0:-1]`) and zipped with the delay predictions; afterwards the
on-time factor for the last vehicle is applied.  The requested arrival time is
passed directly in seconds (`time_from_string` applied to the datetime
string). -/
def journey_confidence_on_arrival_delay_predictions (expCdf : ℚ → ℚ → ℚ)
    (journey : List Leg) (arrival_delay_predictions : List ℚ)
    (journey_arrival_time_in_secs : Int) : ℚ :=
  let st := (journey.dropLast.zip arrival_delay_predictions).foldl (confStep expCdf)
    { arrival_time_last := none, last_arrival_delay := 0, walking_time := 0, confidence := 1 }
  match st.arrival_time_last with
  | none => st.confidence
  | some t =>
    st.confidence * transfer_confidence_simple expCdf st.last_arrival_delay
      ((time_diff journey_arrival_time_in_secs t - st.walking_time : Int) : ℚ)

/-! Concrete inputs used to instantiate or refute individual claims. -/

/-- A relaxable connection: departs "A" at 30, arrives "B" at 40. -/
def c1c : Connection := ⟨1, "t1", "A", "B", 30, 40⟩

/-- A stop map whose "B" entry has a recorded departure at 50 (so a connection
arriving at "B" by 40 is usable). -/
def c1S : String → StopState :=
  updS (fun _ => emptyState) "B"
    { transport := Transport.tnone, start_time := 50, start_stop := some "B",
      arrival_time := none, arrival_stop := none }

/-- The all-false trip-reachability map. -/
def c1T : String → Bool := fun _ => false

/-- Timetable with a two-connection trip "t1" (A to B to C) and a one-connection
trip "t2" (C to E); the extracted A-to-E journey has two vehicle legs, so the
extractor performs a genuine fix-up. -/
def c5TT : List Connection :=
  [⟨1, "t1", "A", "B", 100, 200⟩, ⟨2, "t1", "B", "C", 250, 300⟩, ⟨3, "t2", "C", "E", 350, 450⟩]

/-- The scan state for `c5TT` (origin "A", destination "E", deadline 450). -/
def c5S : String → StopState :=
  match JourneyFinder.connection_scan_latest_arrival c5TT [] "A" "E" 450 with
  | some p => p.1
  | none => fun _ => emptyState

/-- Two connections with equal `arr_time` 100 on the same trip: which one is
scanned first depends on the input row order. -/
def c7a : Connection := ⟨1, "t", "B", "D", 95, 100⟩

/-- See `c7a`. -/
def c7b : Connection := ⟨2, "t", "A", "B", 90, 100⟩

/-- Two connections with distinct `arr_time`s, for the amended determinism
claim. -/
def c7w1 : Connection := ⟨1, "u1", "A", "D", 50, 60⟩

/-- See `c7w1`. -/
def c7w2 : Connection := ⟨2, "u2", "A", "D", 40, 70⟩

/-- A journey with one vehicle leg, one walking leg and the sentinel. -/
def c8J : List Leg :=
  [⟨Transport.trip "t1", 100, 200⟩, ⟨Transport.walking, 210, 240⟩, ⟨Transport.tnone, 0, 0⟩]

/-- A timetable with one connection arriving by the deadline, so the scan's
main loop is reached (only to break immediately). -/
def c9TT : List Connection := [⟨1, "t1", "Y", "Z", 10, 20⟩]

/-- Footpaths containing a stored self-loop at the destination "D" (the spec
assumes reflexive self-loops `(s,s,d)` implicitly) plus a footpath from "X" to
"D": the seed loop overwrites `S["D"]` with a walking record whose
`arrival_stop` is "D" itself. -/
def c9FPS : List Footpath := [⟨"D", "D", 60⟩, ⟨"D", "X", 30⟩]

/-- The scan state for `c9TT`/`c9FPS` (origin "X", destination "D",
deadline 100): `S["X"]` walks to "D" and `S["D"]` is a walking self-loop. -/
def c9S : String → StopState :=
  match JourneyFinder.connection_scan_latest_arrival c9TT c9FPS "X" "D" 100 with
  | some p => p.1
  | none => fun _ => emptyState

/-! ## Helper lemmas -/

/-- The Bool relaxation test of the source equals the propositional one. -/
theorem relaxGuard_iff (S : String → StopState) (T : String → Bool) (c : Connection) :
    relaxGuard S T c = true ↔ relaxCond S T c := by
  simp [relaxGuard, relaxCond, Bool.or_eq_true, Bool.and_eq_true, decide_eq_true_iff]

/-- Folding `backpropStep` over footpaths of non-negative duration does not
change the entry of a stop whose recorded `start_time` equals the departure
time: the guard `S[b].start_time < dep_time - duration` cannot fire there. -/
theorem backpropFold_fixed (t : Int) (d : String) (l : List Footpath) :
    ∀ M : String → StopState, (∀ fp ∈ l, 0 ≤ fp.duration) → (M d).start_time = t →
      (l.foldl (backpropStep t) M) d = M d := by
  induction l with
  | nil => intro M _ _; rfl
  | cons fp l ih =>
    intro M h hd
    have hfp : 0 ≤ fp.duration := h fp (List.mem_cons_self _ _)
    have hl : ∀ g ∈ l, 0 ≤ g.duration := fun g hg => h g (List.mem_cons_of_mem _ hg)
    show (l.foldl (backpropStep t) (backpropStep t M fp)) d = M d
    by_cases hb : fp.stop_id_b = d
    · have hguard : ¬ (M fp.stop_id_b).start_time < t - fp.duration := by
        rw [hb, hd]; omega
      rw [backpropStep, if_neg hguard]
      exact ih M hl hd
    · by_cases hg : (M fp.stop_id_b).start_time < t - fp.duration
      · rw [backpropStep, if_pos hg]
        have hd' : ((updS M fp.stop_id_b
            { transport := Transport.walking, start_time := t - fp.duration,
              start_stop := some fp.stop_id_b, arrival_time := some t,
              arrival_stop := some fp.stop_id_a }) d).start_time = t := by
          rw [updS]; simp only [if_neg (Ne.symm hb)]; exact hd
        rw [ih _ hl hd']
        rw [updS]; simp only [if_neg (Ne.symm hb)]
      · rw [backpropStep, if_neg hg]
        exact ih M hl hd

/-- Folding `backpropStep` never decreases any stop's `start_time` (each write
is guarded by a strict increase). -/
theorem backpropFold_mono (t : Int) (l : List Footpath) :
    ∀ (M : String → StopState) (s : String),
      (M s).start_time ≤ ((l.foldl (backpropStep t) M) s).start_time := by
  induction l with
  | nil => intro M s; exact le_refl _
  | cons fp l ih =>
    intro M s
    refine le_trans ?_ (ih (backpropStep t M fp) s)
    rw [backpropStep]
    split
    · rename_i hg
      by_cases hs : s = fp.stop_id_b
      · subst hs
        rw [updS]; simp only [if_pos rfl]
        exact le_of_lt hg
      · rw [updS]; simp only [if_neg hs]
        exact le_refl _
    · exact le_refl _

/-- One scan-loop body never decreases any stop's `start_time`. -/
theorem connStep_start_time_mono (fps : List Footpath) (c : Connection)
    (S : String → StopState) (T : String → Bool) (s : String) :
    (S s).start_time ≤ ((connStep fps c S T).1 s).start_time := by
  rw [connStep]
  split
  · rename_i hg
    rw [footpathBackprop]
    refine le_trans ?_ (backpropFold_mono _ _ _ s)
    by_cases hs : s = c.dep_stop
    · subst hs
      rw [updS]; simp only [if_pos rfl, connRecord]
      exact le_of_lt ((relaxGuard_iff S T c).mp hg).2
    · rw [updS]; simp only [if_neg hs]
      exact le_refl _
  · exact le_refl _

/-! ## Claim C1 -/

/-- Claim C1: in the backward sweep, for a scanned connection `c` the entry
`S[dep]` is updated using `c` iff `(T[trip] = true ∨ S[arr].start_time ≥
t_arr) ∧ S[dep].start_time < t_dep` (the test at `journey_finder.py` line 174);
when the update fires, `T[trip]` becomes true and `S[dep]` becomes the record
`{transport = trip, start_time = t_dep, start_stop = dep, arrival_time = t_arr,
arrival_stop = arr}`.  (`scanLoop` applies `connStep` to every scanned
connection; the footpath back-propagation inside the same step cannot
overwrite `S[dep]` again when durations are non-negative.) -/
theorem connStep_updates_iff (fps : List Footpath) (c : Connection)
    (S : String → StopState) (T : String → Bool)
    (hfp : ∀ fp ∈ fps, 0 ≤ fp.duration) :
    ((connStep fps c S T).1 c.dep_stop ≠ S c.dep_stop ↔ relaxCond S T c)
      ∧ (relaxCond S T c →
          (connStep fps c S T).1 c.dep_stop = connRecord c
            ∧ (connStep fps c S T).2 c.trip_id = true) := by
  by_cases h : relaxCond S T c
  · have hgt : relaxGuard S T c = true := (relaxGuard_iff S T c).mpr h
    have hstep : connStep fps c S T =
        (footpathBackprop fps c.dep_stop c.dep_time (updS S c.dep_stop (connRecord c)),
         updT T c.trip_id true) := by
      rw [connStep, if_pos hgt]
    have hupd : (connStep fps c S T).1 c.dep_stop = connRecord c := by
      rw [hstep]
      show (footpathBackprop fps c.dep_stop c.dep_time
        (updS S c.dep_stop (connRecord c))) c.dep_stop = connRecord c
      rw [footpathBackprop]
      have hmem : ∀ fp ∈ fps.filter (fun fp => fp.stop_id_a == c.dep_stop), 0 ≤ fp.duration :=
        fun fp hm => hfp fp (List.mem_of_mem_filter hm)
      have hstart : ((updS S c.dep_stop (connRecord c)) c.dep_stop).start_time = c.dep_time := by
        rw [updS]; simp [connRecord]
      rw [backpropFold_fixed _ _ _ _ hmem hstart]
      rw [updS]; simp
    refine ⟨⟨fun _ => h, fun _ => ?_⟩, fun _ => ⟨hupd, ?_⟩⟩
    · rw [hupd]
      intro heq
      have h2 := h.2
      rw [← heq] at h2
      simp [connRecord] at h2
    · rw [hstep]
      show updT T c.trip_id true c.trip_id = true
      rw [updT]; simp
  · have hgf : relaxGuard S T c ≠ true := fun hb => h ((relaxGuard_iff S T c).mp hb)
    have hstep : connStep fps c S T = (S, T) := by
      rw [connStep, if_neg (by simpa using hgf)]
    rw [hstep]
    exact ⟨⟨fun hne => absurd rfl hne, fun hc => absurd hc h⟩, fun hc => absurd hc h⟩

/-- Witness for C1: at the concrete connection `c1c` with state `c1S`, `c1T`
(empty footpaths) the relaxation fires and writes the connection record. -/
theorem connStep_updates_iff_witness :
    ((connStep [] c1c c1S c1T).1 c1c.dep_stop ≠ c1S c1c.dep_stop ↔ relaxCond c1S c1T c1c)
      ∧ (relaxCond c1S c1T c1c →
          (connStep [] c1c c1S c1T).1 c1c.dep_stop = connRecord c1c
            ∧ (connStep [] c1c c1S c1T).2 c1c.trip_id = true) :=
  connStep_updates_iff [] c1c c1S c1T (by simp)

/-! ## Claim C2 -/

/-- Counterexample to C2 as stated: the footpath seeding is an unguarded
overwrite of entries the dict already holds.  Stop "B" is the dep stop of the
timetable's connection, so it belongs to the code's `stop_ids` key set and
`dict.fromkeys` gives it a genuine entry with `start_time = 0`
(`journey_finder.py` lines 110, 118-124); the seed row ("D", "B", 100) with
deadline 60 then replaces that stored value with 60 - 100 = -40
(lines 145-153), a strict decrease, and the subsequent sweep (one connection,
never relaxed) returns the decreased value. -/
theorem seed_write_decreases_start_time :
    ((scanInitS "D" 60) "B").start_time = 0
      ∧ (JourneyFinder.connection_scan_latest_arrival [⟨1, "t1", "B", "C", 10, 20⟩]
          [⟨"D", "B", 100⟩] "B" "D" 60).map (fun p => (p.1 "B").start_time) = some (-40) :=
  ⟨rfl, rfl⟩

/-- Claim C2 (amended): during the main backward sweep (`scanLoop`, starting
from any state) no stop's `start_time` ever decreases — every write inside
`connStep` is guarded by a strict increase.  The unguarded destination-footpath
seeding before the sweep, in contrast, can lower a stop's `start_time` (see the
counterexample). -/
theorem scanLoop_start_time_mono (src : String) (fps : List Footpath)
    (rss : List Connection) :
    ∀ (S : String → StopState) (T : String → Bool) (s : String),
      (S s).start_time ≤ ((scanLoop src fps rss S T).1 s).start_time := by
  induction rss with
  | nil => intro S T s; exact le_refl _
  | cons c rest ih =>
    intro S T s
    rw [scanLoop]
    split
    · exact le_refl _
    · exact le_trans (connStep_start_time_mono fps c S T s)
        (ih (connStep fps c S T).1 (connStep fps c S T).2 s)

/-! ## Claim C3 -/

/-- Claim C3 (code_bug): when no connection has `arr_time ≤ deadline` and the
origin differs from the destination, the scan does not return the seeds — the
source evaluates `timetable_sorted.index[timetable_sorted['connection_id'] ==
None][0]` on an empty index and raises `IndexError`, modelled by `none`. -/
theorem scan_raises_when_no_connection_by_deadline (tt : List Connection)
    (fps : List Footpath) (src dst : String) (dl : Int)
    (hsd : src ≠ dst) (h : ∀ c ∈ tt, dl < c.arr_time) :
    JourneyFinder.connection_scan_latest_arrival tt fps src dst dl = none := by
  have hc : c_0 (timetableSorted tt) dl = none := by
    rw [c_0]
    have hfil : (timetableSorted tt).filter (fun c => decide (c.arr_time ≤ dl)) = [] := by
      rw [List.filter_eq_nil_iff]
      intro c hcmem
      have hmem : c ∈ tt := by
        rw [timetableSorted] at hcmem
        exact (List.mem_insertionSort connLE).mp hcmem
      simpa using not_le.mpr (h c hmem)
    rw [hfil]; rfl
  rw [JourneyFinder.connection_scan_latest_arrival, scanAfterSort, if_neg hsd, hc]

/-- Witness for C3: one connection arriving at 20, deadline 5. -/
theorem scan_raises_when_no_connection_by_deadline_witness :
    JourneyFinder.connection_scan_latest_arrival [⟨1, "t1", "B", "C", 10, 20⟩] [] "B" "D" 5
      = none :=
  scan_raises_when_no_connection_by_deadline _ _ _ _ 5 (by decide) (by decide)

/-! ## Claim C4 -/

/-- Claim C4 (code_bug): when the scan-and-extract step reports no feasible
journey (extraction returns `None`), the enumerator does not stop and return
the journeys collected so far — the line
`arrival_time = pd.to_datetime(journey[-2]['arrival_time'] - 1, ...)` runs
after the `if journey == None` branch and raises `TypeError` on
`None[-2]`.  Concretely: origin "B", destination "D", one connection B→C that
arrives by the deadline but never reaches "D", so the very first iteration
yields no journey, and `find_list_of_journeys` crashes (`none`) instead of
returning the empty list. -/
theorem find_list_raises_when_no_feasible_journey :
    JourneyFinder.find_list_of_journeys [⟨1, "t1", "B", "C", 10, 20⟩] [] "B" "D" 100 5 9
      = none := rfl

/-! ## Claim C5 -/

/-- Claim C5 (code_bug): the extractor does not leave `S` unchanged.  On
`c5TT` the A-to-E journey rides trip "t1" over two connections and then
trip "t2"; the fix-up `ideal_journey[-1]['arrival_time'] = ...` mutates the
dict that is `S["A"]`, changing its `arrival_time`/`arrival_stop` from
(200, "B") to (300, "C"). -/
theorem extraction_mutates_scan_state :
    c5S "A" = { transport := Transport.trip "t1", start_time := 100,
                start_stop := some "A", arrival_time := some 200, arrival_stop := some "B" }
      ∧ (extractFinalS (journey_extraction_latest_arrival c5S "A" "E" 9)).map (fun f => f "A")
          = some { transport := Transport.trip "t1", start_time := 100,
                   start_stop := some "A", arrival_time := some 300,
                   arrival_stop := some "C" } :=
  ⟨rfl, rfl⟩

/-! ## Claim C6 -/

/-- Claim C6 (code_bug): with origin = destination the system does not return
one sentinel journey of confidence 1 — the extractor returns the raw dict
`S[destination]`, and the enumerator then evaluates `journey[-2]` on that
dict, raising `KeyError`.  Modelled: `find_list_of_journeys` crashes
(`none`). -/
theorem find_list_raises_when_source_is_destination :
    JourneyFinder.find_list_of_journeys [⟨1, "t1", "B", "C", 10, 20⟩] [] "A" "A" 50000 5 9
      = none := rfl

/-! ## Claim C10 -/

/-- Counterexample to C10: with a footpath whose `stop_id_a` is the actual
destination "D", the `JourneyFinder` copy seeds `S["X"]` with a walking record
while the `journey_search` copy — which compares `stop_id_a` against the
literal string `'destination_stop_id'` (line 63) — does not, so the two scans
return different results on the same input. -/
theorem duplicated_scans_disagree :
    (JourneyFinder.connection_scan_latest_arrival [⟨1, "t1", "B", "C", 10, 20⟩]
        [⟨"D", "X", 10⟩] "B" "D" 100).map (fun p => p.1 "X")
      ≠ (JourneySearch.connection_scan_latest_arrival [⟨1, "t1", "B", "C", 10, 20⟩]
        [⟨"D", "X", 10⟩] "B" "D" 100).map (fun p => p.1 "X") := by
  decide

/-- Claim C10 (amended): the two duplicated scans return equal results
whenever no footpath's `stop_id_a` equals the destination or the literal
string `'destination_stop_id'` — then both seed loops iterate an empty list
and the remaining code is identical. -/
theorem scans_agree_without_destination_footpaths (tt : List Connection)
    (fps : List Footpath) (src dst : String) (dl : Int)
    (h : ∀ fp ∈ fps, fp.stop_id_a ≠ dst ∧ fp.stop_id_a ≠ "destination_stop_id") :
    JourneySearch.connection_scan_latest_arrival tt fps src dst dl
      = JourneyFinder.connection_scan_latest_arrival tt fps src dst dl := by
  rw [JourneySearch.connection_scan_latest_arrival,
    JourneyFinder.connection_scan_latest_arrival]
  have h1 : fps.filter (fun fp => fp.stop_id_a == dst) = [] := by
    rw [List.filter_eq_nil_iff]
    intro fp hfp
    simpa using (h fp hfp).1
  have h2 : fps.filter (fun fp => fp.stop_id_a == "destination_stop_id") = [] := by
    rw [List.filter_eq_nil_iff]
    intro fp hfp
    simpa using (h fp hfp).2
  rw [h1, h2]

/-- Witness for C10's amended claim at a concrete input. -/
theorem scans_agree_without_destination_footpaths_witness :
    JourneySearch.connection_scan_latest_arrival [⟨1, "t1", "B", "C", 10, 20⟩]
        [⟨"Q", "R", 5⟩] "B" "D" 100
      = JourneyFinder.connection_scan_latest_arrival [⟨1, "t1", "B", "C", 10, 20⟩]
        [⟨"Q", "R", 5⟩] "B" "D" 100 :=
  scans_agree_without_destination_footpaths _ _ _ _ _ (by decide)

/-! ## Claim C7 -/

/-- Two sorted permutations of each other are equal when `arr_time` is
injective on their elements (no ties). -/
theorem sorted_eq_of_perm (l₁ : List Connection) :
    ∀ l₂ : List Connection, l₁.Perm l₂ →
      List.Sorted connLE l₁ → List.Sorted connLE l₂ →
      (∀ c ∈ l₁, ∀ c' ∈ l₁, c.arr_time = c'.arr_time → c = c') → l₁ = l₂ := by
  induction l₁ with
  | nil =>
    intro l₂ hp _ _ _
    exact hp.nil_eq
  | cons a t₁ ih =>
    intro l₂ hp hs₁ hs₂ hinj
    cases l₂ with
    | nil => exact absurd hp.eq_nil (by simp)
    | cons b t₂ =>
      have hab : a = b := by
        by_contra hne
        have hbmem : b ∈ a :: t₁ := hp.mem_iff.mpr (List.mem_cons_self _ _)
        have hamem : a ∈ b :: t₂ := hp.mem_iff.mp (List.mem_cons_self _ _)
        have hb₁ : b ∈ t₁ := by
          rcases List.mem_cons.mp hbmem with h | h
          · exact absurd h.symm hne
          · exact h
        have ha₂ : a ∈ t₂ := by
          rcases List.mem_cons.mp hamem with h | h
          · exact absurd h hne
          · exact h
        have hle₁ : a.arr_time ≤ b.arr_time := (List.sorted_cons.mp hs₁).1 b hb₁
        have hle₂ : b.arr_time ≤ a.arr_time := (List.sorted_cons.mp hs₂).1 a ha₂
        exact hne (hinj a (List.mem_cons_self _ _) b hbmem (le_antisymm hle₁ hle₂))
      subst hab
      have hpt : t₁.Perm t₂ := hp.cons_inv
      have heq : t₁ = t₂ :=
        ih t₂ hpt (List.sorted_cons.mp hs₁).2 (List.sorted_cons.mp hs₂).2
          (fun c hc c' hc' => hinj c (List.mem_cons_of_mem _ hc) c' (List.mem_cons_of_mem _ hc'))
      rw [heq]

/-- The K-journey enumerator produces identical output from two timetables on
which the scan agrees at every deadline. -/
theorem find_list_congr (tt₁ tt₂ : List Connection) (fps : List Footpath)
    (src dst : String)
    (h : ∀ d : Int, JourneyFinder.connection_scan_latest_arrival tt₁ fps src dst d
        = JourneyFinder.connection_scan_latest_arrival tt₂ fps src dst d) :
    ∀ (k : Nat) (dl : Int) (fuel : Nat),
      JourneyFinder.find_list_of_journeys tt₁ fps src dst dl k fuel
        = JourneyFinder.find_list_of_journeys tt₂ fps src dst dl k fuel := by
  intro k
  induction k with
  | zero => intro dl fuel; rfl
  | succ k ih =>
    intro dl fuel
    rw [JourneyFinder.find_list_of_journeys, JourneyFinder.find_list_of_journeys,
      JourneyFinder.get_latest_arrival_journey, JourneyFinder.get_latest_arrival_journey,
      h dl]
    split
    · split
      · rfl
      · rename_i dl' _
        rw [ih dl' fuel]
    · rfl

/-- Counterexample to C7: the source sorts by `arr_time` with no
`connection_id` tie-break, so two timetables holding the same rows in
different orders (here `c7a`, `c7b` share `arr_time` 100) are scanned in
different orders and produce different results: with origin "A" one run never
relaxes `S["A"]` and the other does. -/
theorem tie_order_changes_scan_result :
    List.Perm [c7a, c7b] [c7b, c7a]
      ∧ (JourneyFinder.connection_scan_latest_arrival [c7a, c7b] [] "A" "D" 100).map
            (fun p => p.1 "A")
          ≠ (JourneyFinder.connection_scan_latest_arrival [c7b, c7a] [] "A" "D" 100).map
            (fun p => p.1 "A") :=
  ⟨List.Perm.swap c7b c7a [], by decide⟩

/-- Claim C7 (amended): if no two connections share an `arr_time` (so the
missing tie-break cannot matter), two timetables holding the same rows in any
order give identical scan results and identical enumerator output. -/
theorem scan_deterministic_of_distinct_arrivals (tt₁ tt₂ : List Connection)
    (fps : List Footpath) (src dst : String) (dl : Int) (k fuel : Nat)
    (hperm : tt₁.Perm tt₂)
    (hinj : ∀ c ∈ tt₁, ∀ c' ∈ tt₁, c.arr_time = c'.arr_time → c = c') :
    JourneyFinder.connection_scan_latest_arrival tt₁ fps src dst dl
        = JourneyFinder.connection_scan_latest_arrival tt₂ fps src dst dl
      ∧ JourneyFinder.find_list_of_journeys tt₁ fps src dst dl k fuel
        = JourneyFinder.find_list_of_journeys tt₂ fps src dst dl k fuel := by
  have hsort : timetableSorted tt₁ = timetableSorted tt₂ := by
    rw [timetableSorted, timetableSorted]
    exact sorted_eq_of_perm _ _
      ((List.perm_insertionSort connLE tt₁).trans
        (hperm.trans (List.perm_insertionSort connLE tt₂).symm))
      (List.sorted_insertionSort connLE tt₁) (List.sorted_insertionSort connLE tt₂)
      (fun c hc c' hc' => hinj c ((List.mem_insertionSort connLE).mp hc)
        c' ((List.mem_insertionSort connLE).mp hc'))
  have hscan : ∀ d : Int, JourneyFinder.connection_scan_latest_arrival tt₁ fps src dst d
      = JourneyFinder.connection_scan_latest_arrival tt₂ fps src dst d := by
    intro d
    rw [JourneyFinder.connection_scan_latest_arrival,
      JourneyFinder.connection_scan_latest_arrival, hsort]
  exact ⟨hscan dl, find_list_congr tt₁ tt₂ fps src dst hscan k dl fuel⟩

/-- Witness for C7's amended claim: `c7w1`, `c7w2` have distinct arrival
times, and the two row orders give equal scans and equal journey lists. -/
theorem scan_deterministic_of_distinct_arrivals_witness :
    JourneyFinder.connection_scan_latest_arrival [c7w1, c7w2] [] "A" "D" 100
        = JourneyFinder.connection_scan_latest_arrival [c7w2, c7w1] [] "A" "D" 100
      ∧ JourneyFinder.find_list_of_journeys [c7w1, c7w2] [] "A" "D" 100 5 9
        = JourneyFinder.find_list_of_journeys [c7w2, c7w1] [] "A" "D" 100 5 9 :=
  scan_deterministic_of_distinct_arrivals _ _ _ _ _ _ _ _
    (List.Perm.swap c7w2 c7w1 []) (by decide)

/-! ## Claim C9 -/

/-- Once the extraction walk sits on a stop `k` whose record has the current
mode and points back to `k` itself, every further iteration repeats the same
state and only consumes fuel: the `while` loop never terminates. -/
theorem extractLoop_self_cycle (src k : String) (S : String → StopState) (mode : Transport)
    (h1 : (S k).transport = mode) (h2 : mode ≠ Transport.tnone)
    (h3 : (S k).arrival_stop = some k) :
    ∀ (fuel : Nat) (prevOpt : Option StopState) (journey : List (String × StopState)),
      extractLoop src fuel S (k, S k) mode prevOpt journey = ExtractOut.fuelOut := by
  intro fuel
  induction fuel with
  | zero => intro _ _; rfl
  | succ n ih =>
    intro prevOpt journey
    simp only [extractLoop]
    rw [if_neg (show ¬ (k, S k).2.transport = Transport.tnone by rw [h1]; exact h2)]
    have hne : ¬ (k, S k).2.transport ≠ mode := by rw [h1]; exact fun hne => hne rfl
    rw [if_neg hne]
    rw [h3]
    exact ih (some (S k)) journey

/-- Claim C9 (code_bug): the extraction walk need not terminate on scan
output.  On `c9FPS` (which stores the reflexive destination footpath
("D","D",60)) the seed loop overwrites `S["D"]` with a walking record whose
`arrival_stop` is "D", so the walk from origin "X" reaches "D" and then loops
forever: for every fuel bound the extractor is still running.  This also
contradicts the extractor's own comment (`journey_finder.py` line 222), which
relies on `S[destination]` keeping its `transport = None` initialisation. -/
theorem extraction_walk_diverges_on_destination_self_loop :
    (JourneyFinder.connection_scan_latest_arrival c9TT c9FPS "X" "D" 100).isSome = true
      ∧ ∀ fuel : Nat,
          journey_extraction_latest_arrival c9S "X" "D" fuel = ExtractOut.fuelOut := by
  refine ⟨rfl, ?_⟩
  intro fuel
  have hstart : journey_extraction_latest_arrival c9S "X" "D" fuel
      = extractLoop "X" fuel c9S ("X", c9S "X") Transport.tnone none [] := rfl
  rw [hstart]
  cases fuel with
  | zero => rfl
  | succ n =>
    have hstep : extractLoop "X" (n + 1) c9S ("X", c9S "X") Transport.tnone none []
        = extractLoop "X" n c9S ("D", c9S "D") Transport.walking (some (c9S "X"))
            [("X", c9S "X")] := rfl
    rw [hstep]
    exact extractLoop_self_cycle "X" "D" c9S Transport.walking rfl (by decide) rfl n _ _

/-! ## Claim C8 -/

/-- Folding the confidence loop over legs whose zipped delay predictions are
all zero keeps the confidence at 1 and the remembered delay non-positive:
`transfer_confidence_simple` returns 1 outright whenever the delay is
non-positive. -/
theorem confFold_zero_delay (expCdf : ℚ → ℚ → ℚ) (l : List (Leg × ℚ)) :
    ∀ st : ConfState, (∀ p ∈ l, p.2 = 0) →
      st.confidence = 1 → st.last_arrival_delay ≤ 0 →
      (l.foldl (confStep expCdf) st).confidence = 1
        ∧ (l.foldl (confStep expCdf) st).last_arrival_delay ≤ 0 := by
  induction l with
  | nil => intro st _ h1 h2; exact ⟨h1, h2⟩
  | cons p l ih =>
    intro st hl h1 h2
    refine ih (confStep expCdf st p) (fun q hq => hl q (List.mem_cons_of_mem _ hq)) ?_ ?_
    · rw [confStep]
      split
      · exact h1
      · dsimp only
        cases st.arrival_time_last with
        | none => exact h1
        | some t =>
          dsimp only
          rw [transfer_confidence_simple, if_pos h2, h1, mul_one]
    · rw [confStep]
      split
      · exact h2
      · show p.2 ≤ 0
        rw [hl p (List.mem_cons_self _ _)]

/-- Claim C8: if every delay prediction is zero, the composed journey
confidence is exactly 1 (every per-transfer factor and the final on-time
factor take the `arrival_delay <= 0` branch of `transfer_confidence_simple`),
so the journey passes any threshold at most 1. -/
theorem journey_confidence_zero_delay (expCdf : ℚ → ℚ → ℚ) (journey : List Leg)
    (preds : List ℚ) (deadline : Int) (threshold : ℚ)
    (hz : ∀ d ∈ preds, d = 0) (ht : threshold ≤ 1) :
    journey_confidence_on_arrival_delay_predictions expCdf journey preds deadline = 1
      ∧ threshold ≤
          journey_confidence_on_arrival_delay_predictions expCdf journey preds deadline := by
  have hzip : ∀ p ∈ journey.dropLast.zip preds, (p : Leg × ℚ).2 = 0 := by
    intro p hp
    rcases p with ⟨leg, d⟩
    exact hz d (List.of_mem_zip hp).2
  have hfold := confFold_zero_delay expCdf (journey.dropLast.zip preds)
    { arrival_time_last := none, last_arrival_delay := 0, walking_time := 0, confidence := 1 }
    hzip rfl (le_refl 0)
  have hone : journey_confidence_on_arrival_delay_predictions expCdf journey preds deadline
      = 1 := by
    rw [journey_confidence_on_arrival_delay_predictions]
    cases hlast : ((journey.dropLast.zip preds).foldl (confStep expCdf)
        { arrival_time_last := none, last_arrival_delay := 0, walking_time := 0,
          confidence := 1 }).arrival_time_last with
    | none => exact hfold.1
    | some t =>
      dsimp only
      rw [transfer_confidence_simple, if_pos hfold.2, hfold.1, mul_one]
  exact ⟨hone, by rw [hone]; exact ht⟩

/-- Witness for C8 on a concrete journey, all-zero predictions and
threshold 7/10. -/
theorem journey_confidence_zero_delay_witness :
    journey_confidence_on_arrival_delay_predictions (fun _ _ => 0) c8J [0, 0] 300 = 1
      ∧ (7 / 10 : ℚ) ≤
          journey_confidence_on_arrival_delay_predictions (fun _ _ => 0) c8J [0, 0] 300 :=
  journey_confidence_zero_delay (fun _ _ => 0) c8J [0, 0] 300 (7 / 10)
    (by decide) (by norm_num)
